import Mathlib

/-!
Shallow embedding of the BIRD Linux netlink synchronizer
(src/sysdep/linux/netlink/netlink.c) and proofs about it.

Machine integers are modelled as `Nat`, with an explicit `% 2^32` where
the C code can wrap a `u32`.  Wire-level IPv4 addresses are `Nat` values
below `2^32` holding the four payload bytes as read on a little-endian
host; `ipa_ntoh` / `ipa_hton` are the 32-bit byte swap performed by the
`ntohl` / `htonl` conversions in the C code.
-/

/-! ## Kernel ABI constants (linux/netlink.h, linux/rtnetlink.h, net/if.h) -/

def AF_INET : Nat := 2

/-- PF_INET coincides with AF_INET. -/
def PF_INET : Nat := 2

def NLM_F_REQUEST : Nat := 1
def NLM_F_ACK : Nat := 4
def NLM_F_ROOT : Nat := 0x100
def NLM_F_MATCH : Nat := 0x200
def NLM_F_DUMP : Nat := NLM_F_ROOT ||| NLM_F_MATCH
def NLM_F_REPLACE : Nat := 0x100
def NLM_F_CREATE : Nat := 0x400

def NLMSG_DONE : Nat := 3
def NLMSG_ERROR : Nat := 2

def RTM_NEWLINK : Nat := 16
def RTM_DELLINK : Nat := 17
def RTM_GETLINK : Nat := 18
def RTM_NEWADDR : Nat := 20
def RTM_DELADDR : Nat := 21
def RTM_GETADDR : Nat := 22
def RTM_NEWROUTE : Nat := 24
def RTM_DELROUTE : Nat := 25
def RTM_GETROUTE : Nat := 26

def RT_TABLE_MAIN : Nat := 254

def RTPROT_REDIRECT : Nat := 1
def RTPROT_KERNEL : Nat := 2

/-- RTPROT_BIRD is defined to 13 at the top of netlink.c. -/
def RTPROT_BIRD : Nat := 13

def RT_SCOPE_UNIVERSE : Nat := 0

def RTN_UNICAST : Nat := 1
def RTN_BLACKHOLE : Nat := 6
def RTN_UNREACHABLE : Nat := 7
def RTN_PROHIBIT : Nat := 8

def RTA_DST : Nat := 1
def RTA_OIF : Nat := 4
def RTA_GATEWAY : Nat := 5

def IFA_F_SECONDARY : Nat := 1

def IFF_UP : Nat := 0x1
def IFF_BROADCAST : Nat := 0x2
def IFF_LOOPBACK : Nat := 0x8
def IFF_POINTOPOINT : Nat := 0x10

/-! ## Sizes and alignment

`struct nlmsghdr` is 16 bytes (four-byte alignment); `struct rtgenmsg`
is a single byte; `struct rtmsg` is 12 bytes.  `NLMSG_ALIGN` rounds up
to a multiple of 4. -/

def SIZEOF_NLMSGHDR : Nat := 16

def SIZEOF_RTGENMSG : Nat := 1

def SIZEOF_RTMSG : Nat := 12

def NLMSG_ALIGNTO : Nat := 4

def nlmsgAlign (n : Nat) : Nat := (n + NLMSG_ALIGNTO - 1) / NLMSG_ALIGNTO * NLMSG_ALIGNTO

/-- NLMSG_LENGTH(len) = len + NLMSG_ALIGN(sizeof(struct nlmsghdr)). -/
def NLMSG_LENGTH (len : Nat) : Nat := len + nlmsgAlign SIZEOF_NLMSGHDR

/-- Size of the C structure `struct { struct nlmsghdr nh; struct rtgenmsg g; }`
used by nl_request_dump.  Its alignment is that of nlmsghdr (4 bytes), so the
compiler pads the 16+1 = 17 payload bytes to 20. -/
def SIZEOF_NL_REQ : Nat := nlmsgAlign (SIZEOF_NLMSGHDR + SIZEOF_RTGENMSG)

/-- RTA_ALIGN: netlink attributes are padded to 4-byte multiples. -/
def rtaAlign (n : Nat) : Nat := (n + 3) / 4 * 4

/-! ## Byte-order conversion

BIRD's `ipa_ntoh` / `ipa_hton` are `ntohl` / `htonl` on an IPv4 build;
on the little-endian hosts modelled here both are the 32-bit byte swap. -/

def ipa_ntoh (x : Nat) : Nat :=
  (x % 256) * 2 ^ 24 + (x / 2 ^ 8 % 256) * 2 ^ 16 + (x / 2 ^ 16 % 256) * 2 ^ 8 + x / 2 ^ 24 % 256

def ipa_hton (x : Nat) : Nat := ipa_ntoh x

/-! ## Log events

The translators log through BIRD's logger; only the identity of each
message matters for the specification, so messages are an inductive. -/

inductive LogMsg where
  | warnOutOfSeq
  | warnRemnant
  | errMalformedLink
  | errMalformedAddr
  | errUnknownIface
  | errInvalidPrefixLen
  | errMalformedRoute
  | errNoOIF
  | warnNonNeighbor
  deriving DecidableEq, Repr

/-! ## Dump requests (nl_request_dump, netlink.c lines 92-104)

The function fills the request structure and hands it to nl_send, which
stamps pid = 0 and the next sequence number; the fields below are the
ones nl_request_dump itself writes.  `nlmsg_len` is set to the C
expression `sizeof(req)`. -/

structure DumpReq where
  nlmsg_type : Nat
  nlmsg_len : Nat
  nlmsg_flags : Nat
  rtgen_family : Nat
  deriving DecidableEq, Repr

def nl_request_dump (cmd : Nat) : DumpReq :=
  { nlmsg_type := cmd
    nlmsg_len := SIZEOF_NL_REQ
    nlmsg_flags := NLM_F_REQUEST ||| NLM_F_DUMP
    rtgen_family := PF_INET }

/-! ## Netlink attributes: nl_parse_attrs (netlink.c lines 214-232)

A TLV region is modelled as the list of attribute headers laid out in
wire order together with the region's byte length; `rta_len` is the
attribute's wire length including its 4-byte header, so RTA_PAYLOAD is
`rta_len - 4`.  The payload is viewed either as a u32 (`val`, the raw
bytes as stored) or as a byte string (`str`), matching the accessors the
translators use. -/

structure Rtattr where
  rta_len : Nat
  rta_type : Nat
  val : Nat := 0
  str : String := ""
  deriving DecidableEq, Repr

def RTA_PAYLOAD (a : Rtattr) : Nat := a.rta_len - 4

/-- One pass of the `while (RTA_OK(a, nl_attr_len))` loop.  The running
length is an `int` in C, hence `Int` here; RTA_NEXT subtracts the aligned
attribute length.  On a sequence-mismatched stop the loop simply exits
with the length it has. -/
def nl_parse_attrs_go (max : Nat) :
    List Rtattr → Int → (Nat → Option Rtattr) → (Nat → Option Rtattr) × Int
  | [], len, k => (k, len)
  | a :: rest, len, k =>
    if 4 ≤ len ∧ 4 ≤ (a.rta_len : Int) ∧ (a.rta_len : Int) ≤ len then
      nl_parse_attrs_go max rest (len - (rtaAlign a.rta_len : Nat))
        (fun t => if a.rta_type < max ∧ t = a.rta_type then some a else k t)
    else
      (k, len)

structure AttrParse where
  table : Nat → Option Rtattr
  ok : Bool

/-- nl_parse_attrs: zero the table, walk the region, succeed iff no
remnant is left (`if (nl_attr_len) ... return 0; else return 1`). -/
def nl_parse_attrs (max : Nat) (attrs : List Rtattr) (len : Int) : AttrParse :=
  let r := nl_parse_attrs_go max attrs len (fun _ => none)
  { table := r.1, ok := r.2 == 0 }

/-- Byte length of a region consisting exactly of the given attributes. -/
def rtaRegionLen : List Rtattr → Nat
  | [] => 0
  | a :: rest => rtaAlign a.rta_len + rtaRegionLen rest

theorem rtaAlign_ge (n : Nat) : n ≤ rtaAlign n := by
  unfold rtaAlign
  omega

/-- First-some choice, used to express "the table keeps the last write". -/
def optOr {α : Type _} (x y : Option α) : Option α :=
  match x with
  | some v => some v
  | none => y

theorem getLast?_cons_eq {α : Type _} (a : α) (l : List α) :
    (a :: l).getLast? = optOr l.getLast? (some a) := by
  cases l with
  | nil => rfl
  | cons b t =>
    rw [List.getLast?_cons_cons]
    cases h : (b :: t).getLast? with
    | none => simp [List.getLast?] at h
    | some v => rfl

theorem nl_parse_attrs_go_spec (max : Nat) (attrs : List Rtattr) :
    ∀ (k : Nat → Option Rtattr), (∀ a ∈ attrs, 4 ≤ a.rta_len) →
      (nl_parse_attrs_go max attrs (rtaRegionLen attrs) k).2 = 0 ∧
      ∀ c, c < max →
        (nl_parse_attrs_go max attrs (rtaRegionLen attrs) k).1 c =
          optOr ((attrs.filter (fun a => a.rta_type = c)).getLast?) (k c) := by
  induction attrs with
  | nil =>
    intro k _
    exact ⟨rfl, fun c _ => rfl⟩
  | cons a rest ih =>
    intro k hwf
    have ha : 4 ≤ a.rta_len := hwf a (by simp)
    have hrest : ∀ b ∈ rest, 4 ≤ b.rta_len := fun b hb => hwf b (by simp [hb])
    have halign := rtaAlign_ge a.rta_len
    have hcond : (4 : Int) ≤ ((rtaRegionLen (a :: rest) : Nat) : Int) ∧
        (4 : Int) ≤ (a.rta_len : Int) ∧
        (a.rta_len : Int) ≤ ((rtaRegionLen (a :: rest) : Nat) : Int) := by
      simp only [rtaRegionLen]
      push_cast
      omega
    have hlen : ((rtaRegionLen (a :: rest) : Nat) : Int) - ((rtaAlign a.rta_len : Nat) : Int) =
        ((rtaRegionLen rest : Nat) : Int) := by
      simp only [rtaRegionLen]
      push_cast
      ring
    have hstep : nl_parse_attrs_go max (a :: rest) (rtaRegionLen (a :: rest)) k =
        nl_parse_attrs_go max rest (rtaRegionLen rest)
          (fun t => if a.rta_type < max ∧ t = a.rta_type then some a else k t) := by
      show (if (4 : Int) ≤ ((rtaRegionLen (a :: rest) : Nat) : Int) ∧
          (4 : Int) ≤ (a.rta_len : Int) ∧
          (a.rta_len : Int) ≤ ((rtaRegionLen (a :: rest) : Nat) : Int) then
        nl_parse_attrs_go max rest
          (((rtaRegionLen (a :: rest) : Nat) : Int) - ((rtaAlign a.rta_len : Nat) : Int))
          (fun t => if a.rta_type < max ∧ t = a.rta_type then some a else k t)
        else (k, ((rtaRegionLen (a :: rest) : Nat) : Int))) = _
      rw [if_pos hcond, hlen]
    rw [hstep]
    obtain ⟨h2, h1⟩ := ih (fun t => if a.rta_type < max ∧ t = a.rta_type then some a else k t) hrest
    refine ⟨h2, fun c hc => ?_⟩
    rw [h1 c hc]
    show optOr _ (if a.rta_type < max ∧ c = a.rta_type then some a else k c) = _
    by_cases hty : a.rta_type = c
    · subst hty
      rw [if_pos (And.intro hc rfl)]
      simp only [List.filter_cons]
      rw [if_pos (by simp)]
      rw [getLast?_cons_eq]
      cases (rest.filter (fun b => b.rta_type = a.rta_type)).getLast? <;> rfl
    · rw [if_neg (fun hh => hty hh.2.symm)]
      simp only [List.filter_cons]
      rw [if_neg (by simp [hty])]

/-- Claim C9: in the TLV parse, when two or more attributes within one
record carry the same attribute code below the declared bound, the
resulting attribute table maps that code to the last such attribute in
wire order: each later occurrence overwrites the earlier one, and the
parse still succeeds. -/
theorem nl_parse_attrs_last_occurrence_wins (max : Nat) (attrs : List Rtattr) (c : Nat)
    (hwf : ∀ a ∈ attrs, 4 ≤ a.rta_len) (hc : c < max)
    (hdup : 2 ≤ (attrs.filter (fun a => a.rta_type = c)).length) :
    (nl_parse_attrs max attrs (rtaRegionLen attrs)).ok = true ∧
    (nl_parse_attrs max attrs (rtaRegionLen attrs)).table c =
      (attrs.filter (fun a => a.rta_type = c)).getLast? := by
  obtain ⟨h2, h1⟩ := nl_parse_attrs_go_spec max attrs (fun _ => none) hwf
  constructor
  · simp only [nl_parse_attrs]
    rw [h2]
    rfl
  · simp only [nl_parse_attrs]
    rw [h1 c hc]
    cases (attrs.filter (fun a => a.rta_type = c)).getLast? <;> rfl

/-- Two attributes carrying the same code 1, eight wire bytes each. -/
def dupAttrs : List Rtattr := [⟨8, 1, 5, ""⟩, ⟨8, 1, 9, ""⟩]

theorem nl_parse_attrs_last_occurrence_wins_witness :
    (∀ a ∈ dupAttrs, 4 ≤ a.rta_len) ∧ 1 < 5 ∧
    2 ≤ (dupAttrs.filter (fun a => a.rta_type = 1)).length ∧
    ((nl_parse_attrs 5 dupAttrs (rtaRegionLen dupAttrs)).ok = true ∧
     (nl_parse_attrs 5 dupAttrs (rtaRegionLen dupAttrs)).table 1 =
       (dupAttrs.filter (fun a => a.rta_type = 1)).getLast?) :=
  ⟨by decide, by decide, by decide,
    nl_parse_attrs_last_occurrence_wins 5 dupAttrs 1 (by decide) (by decide) (by decide)⟩

/-! ## The synchronous channel (nl_send, nl_get_reply; netlink.c lines 78-145)

State of the synchronous endpoint: the last-request sequence number
`nl_sync_seq` (a u32, incremented modulo 2^32 on every send), the
receive-buffer cursor (`nl_last_hdr` / `nl_last_size`, modelled as the
frames not yet consumed plus the trailing byte count that forms no whole
header), and the datagrams future recvmsg calls will deliver. -/

structure NlFrame where
  nlmsg_seq : Nat
  nlmsg_type : Nat
  deriving DecidableEq, Repr

structure NlDatagram where
  nl_pid : Nat
  msg_trunc : Bool
  frames : List NlFrame
  remnant : Nat
  deriving DecidableEq, Repr

structure NlChan where
  nl_sync_seq : Nat
  cursor : Option (List NlFrame × Nat)
  queue : List NlDatagram
  deriving DecidableEq, Repr

/-- nl_send: stamp pid = 0 and the incremented sequence into the outgoing
message, transmit (failure is fatal and not modelled further), and clear
`nl_last_hdr`. -/
def nl_send (s : NlChan) : NlChan :=
  { s with nl_sync_seq := (s.nl_sync_seq + 1) % 2 ^ 32, cursor := none }

inductive NlStep where
  | yield (f : NlFrame) (s : NlChan)
  | cont (s : NlChan)
  | blocked
  | aborted
  deriving DecidableEq, Repr

/-- One iteration of the `for(;;)` loop in nl_get_reply.  With no cursor,
recvmsg a datagram: non-kernel senders are skipped without installing a
cursor, truncation is a fatal bug.  With a cursor on a whole frame
(NLMSG_OK), an out-of-sequence frame is warned about and `continue`d —
note that the C code advances `nl_last_hdr` only on the return path, so
this `continue` re-examines the same frame.  With NLMSG_OK false, any
nonzero remnant is warned about and the cursor is dropped. -/
def nl_get_reply_step (s : NlChan) : NlStep :=
  match s.cursor with
  | none =>
    match s.queue with
    | [] => .blocked
    | dg :: rest =>
      if dg.nl_pid ≠ 0 then .cont { s with queue := rest }
      else if dg.msg_trunc then .aborted
      else .cont { s with cursor := some (dg.frames, dg.remnant), queue := rest }
  | some (f :: fs, rem) =>
    if f.nlmsg_seq ≠ s.nl_sync_seq then .cont s
    else .yield f { s with cursor := some (fs, rem) }
  | some ([], _) => .cont { s with cursor := none }

/-- nl_get_reply, run for at most `fuel` loop iterations; `none` stands
for an execution that never returns a frame within the fuel (blocking
forever, aborting, or still looping). -/
def nl_get_reply : Nat → NlChan → Option (NlFrame × NlChan)
  | 0, _ => none
  | fuel + 1, s =>
    match nl_get_reply_step s with
    | .yield f s' => some (f, s')
    | .cont s' => nl_get_reply fuel s'
    | .blocked => none
    | .aborted => none

/-- A synchronous channel whose buffer still holds an out-of-sequence
frame (seq 4) in front of an in-sequence frame (seq 5) while the active
request has seq 5 — the §8 scenario 6 shape. -/
def staleChan : NlChan :=
  { nl_sync_seq := 5
    cursor := some ([⟨4, RTM_NEWROUTE⟩, ⟨5, RTM_NEWROUTE⟩], 0)
    queue := [] }

/-- Claim C3 (code bug): the reply loop is meant to warn about and skip a
frame whose sequence differs from the active request, continuing with the
next frame.  In the code the cursor advance (`nl_last_hdr = NLMSG_NEXT`)
sits on the return path only, so the `continue` taken on a sequence
mismatch re-examines the very same frame: the loop iteration leaves the
channel state unchanged, and nl_get_reply never yields the in-sequence
frame sitting right behind the stale one, for any number of iterations. -/
theorem nl_get_reply_spins_on_stale :
    nl_get_reply_step staleChan = NlStep.cont staleChan ∧
    ∀ fuel, nl_get_reply fuel staleChan = none := by
  have hstep : nl_get_reply_step staleChan = NlStep.cont staleChan := by decide
  refine ⟨hstep, fun fuel => ?_⟩
  induction fuel with
  | zero => rfl
  | succ n ih =>
    show (match nl_get_reply_step staleChan with
      | .yield f s' => some (f, s')
      | .cont s' => nl_get_reply n s'
      | .blocked => none
      | .aborted => none) = none
    rw [hstep]
    exact ih

/-- Frames yielded by nl_get_reply come from the buffer cursor or from
one of the datagrams recvmsg delivers. -/
theorem nl_get_reply_source (fuel : Nat) :
    ∀ (s : NlChan) (f : NlFrame) (s' : NlChan), nl_get_reply fuel s = some (f, s') →
      (∃ fs rem, s.cursor = some (fs, rem) ∧ f ∈ fs) ∨
      ∃ dg ∈ s.queue, f ∈ dg.frames := by
  induction fuel with
  | zero =>
    intro s f s' h
    exact absurd h (by simp [nl_get_reply])
  | succ n ih =>
    intro s f s' h
    have hh : (match nl_get_reply_step s with
        | .yield g t => some (g, t)
        | .cont t => nl_get_reply n t
        | .blocked => none
        | .aborted => none) = some (f, s') := h
    rcases s with ⟨seq, cursor, queue⟩
    rcases cursor with _ | ⟨fs, rem⟩
    · rcases queue with _ | ⟨dg, rest⟩
      · simp [nl_get_reply_step] at hh
      · by_cases hpid : dg.nl_pid ≠ 0
        · have : nl_get_reply_step ⟨seq, none, dg :: rest⟩ =
              .cont ⟨seq, none, rest⟩ := by
            simp [nl_get_reply_step, hpid]
          rw [this] at hh
          rcases ih _ _ _ hh with ⟨fs, rem, hcur, _⟩ | ⟨dg', hdg', hf⟩
          · exact absurd hcur (by simp)
          · exact Or.inr ⟨dg', by simp [hdg'], hf⟩
        · by_cases htr : dg.msg_trunc
          · have : nl_get_reply_step ⟨seq, none, dg :: rest⟩ = .aborted := by
              simp [nl_get_reply_step, hpid, htr]
            rw [this] at hh
            exact absurd hh (by simp)
          · have : nl_get_reply_step ⟨seq, none, dg :: rest⟩ =
                .cont ⟨seq, some (dg.frames, dg.remnant), rest⟩ := by
              simp [nl_get_reply_step, hpid, htr]
            rw [this] at hh
            rcases ih _ _ _ hh with ⟨fs, rem, hcur, hf⟩ | ⟨dg', hdg', hf⟩
            · refine Or.inr ⟨dg, by simp, ?_⟩
              obtain ⟨h1, _⟩ := Prod.mk.injEq .. ▸ Option.some.injEq .. ▸ hcur
              exact (by simpa [← h1] using hf)
            · exact Or.inr ⟨dg', by simp [hdg'], hf⟩
    · rcases fs with _ | ⟨g, gs⟩
      · have : nl_get_reply_step ⟨seq, some ([], rem), queue⟩ =
            .cont ⟨seq, none, queue⟩ := by
          simp [nl_get_reply_step]
        rw [this] at hh
        rcases ih _ _ _ hh with ⟨fs, rem', hcur, _⟩ | ⟨dg', hdg', hf⟩
        · exact absurd hcur (by simp)
        · exact Or.inr ⟨dg', hdg', hf⟩
      · by_cases hseq : g.nlmsg_seq ≠ seq
        · have : nl_get_reply_step ⟨seq, some (g :: gs, rem), queue⟩ =
              .cont ⟨seq, some (g :: gs, rem), queue⟩ := by
            simp [nl_get_reply_step, hseq]
          rw [this] at hh
          exact ih _ _ _ hh
        · have : nl_get_reply_step ⟨seq, some (g :: gs, rem), queue⟩ =
              .yield g ⟨seq, some (gs, rem), queue⟩ := by
            simp [nl_get_reply_step, hseq]
          rw [this] at hh
          have : f = g := by
            have := Option.some.injEq .. ▸ hh
            exact ((Prod.mk.injEq .. ▸ this).1).symm
          exact Or.inl ⟨g :: gs, rem, rfl, by simp [this]⟩

/-- Claim C10: sending any request on the synchronous channel resets the
buffered receive cursor, so frames left over from an earlier recvmsg
buffer are never yielded as replies to the newly sent request: the first
reply returned after a send always originates from a fresh recvmsg. -/
theorem nl_send_resets_cursor (s : NlChan) (fuel : Nat) (f : NlFrame) (s' : NlChan)
    (h : nl_get_reply fuel (nl_send s) = some (f, s')) :
    (nl_send s).cursor = none ∧ ∃ dg ∈ s.queue, f ∈ dg.frames := by
  refine ⟨rfl, ?_⟩
  rcases nl_get_reply_source fuel (nl_send s) f s' h with ⟨fs, rem, hcur, _⟩ | ⟨dg, hdg, hf⟩
  · exact absurd hcur (by simp [nl_send])
  · exact ⟨dg, hdg, hf⟩

/-- A channel with a stale leftover frame in the buffer and one fresh
kernel datagram queued. -/
def leftoverChan : NlChan :=
  { nl_sync_seq := 10
    cursor := some ([⟨99, RTM_NEWROUTE⟩], 0)
    queue := [⟨0, false, [⟨11, RTM_NEWROUTE⟩], 0⟩] }

theorem nl_send_resets_cursor_witness :
    nl_get_reply 3 (nl_send leftoverChan) =
      some (⟨11, RTM_NEWROUTE⟩, ⟨11, some ([], 0), []⟩) ∧
    ((nl_send leftoverChan).cursor = none ∧
     ∃ dg ∈ leftoverChan.queue, NlFrame.mk 11 RTM_NEWROUTE ∈ dg.frames) :=
  ⟨by decide,
    nl_send_resets_cursor leftoverChan 3 ⟨11, RTM_NEWROUTE⟩ ⟨11, some ([], 0), []⟩ (by decide)⟩

/-! ## Abstract interfaces (nest/iface.h objects as used by netlink.c)

The IF_* flag constants come from nest/iface.h, which is outside src/;
only their identities matter, so the flag word is a structure of
booleans.  `pfx` stands for the C field `prefix`. -/

structure IfFlags where
  linkUp : Bool := false
  adminDown : Bool := false
  unnumbered : Bool := false
  multicast : Bool := false
  loopback : Bool := false
  ignore : Bool := false
  broadcast : Bool := false
  deriving DecidableEq, Repr

structure Iface where
  index : Nat := 0
  name : String := ""
  mtu : Nat := 0
  flags : IfFlags := {}
  ip : Nat := 0
  brd : Nat := 0
  opposite : Nat := 0
  pfx : Nat := 0
  pxlen : Nat := 0
  deriving DecidableEq, Repr

/-! ## Link translator (nl_parse_link, netlink.c lines 269-327) -/

structure IfInfoMsg where
  ifi_index : Nat
  ifi_flags : Nat
  deriving DecidableEq, Repr

structure LinkAttrs where
  ifla_ifname : Option Rtattr := none
  ifla_mtu : Option Rtattr := none
  deriving DecidableEq, Repr

/-- The flag computation of nl_parse_link lines 315-324: `f.flags = 0`
then one `|=` per kernel flag bit, in source order. -/
def nl_link_flags (fl : Nat) : IfFlags :=
  let f : IfFlags := {}
  let f := if fl &&& IFF_UP ≠ 0 then { f with linkUp := true } else f
  let f := if fl &&& IFF_POINTOPOINT ≠ 0 then { f with unnumbered := true, multicast := true } else f
  let f := if fl &&& IFF_LOOPBACK ≠ 0 then { f with loopback := true, ignore := true } else f
  let f := if fl &&& IFF_BROADCAST ≠ 0 then { f with broadcast := true, multicast := true } else f
  f

/-- nl_parse_link after nl_checkin / nl_parse_attrs have produced the
body and attribute table (that stage is modelled by nl_parse_attrs
above).  Returns the interface record passed to if_update, if any,
together with the log messages emitted. -/
def nl_parse_link (msgType : Nat) (i : IfInfoMsg) (a : LinkAttrs) (scan : Bool)
    (if_find_by_index : Nat → Option Iface) : Option Iface × List LogMsg :=
  match a.ifla_ifname, a.ifla_mtu with
  | some nm, some mtuA =>
    if RTA_PAYLOAD nm < 2 ∨ RTA_PAYLOAD mtuA ≠ 4 then (none, [.errMalformedLink])
    else
      let new := msgType == RTM_NEWLINK
      let ifi := if_find_by_index i.ifi_index
      if new = false then
        match ifi with
        | some oldf =>
          if scan = false then
            (some { oldf with flags := { oldf.flags with adminDown := true } }, [])
          else (none, [])
        | none => (none, [])
      else
        let f := match ifi with
          | some oldf => oldf
          | none => { index := i.ifi_index }
        let f := { f with name := nm.str, mtu := mtuA.val, flags := nl_link_flags i.ifi_flags }
        (some f, [])
  | _, _ => (none, [.errMalformedLink])

/-- Pointwise union of abstract flag sets. -/
def flagsUnion (x y : IfFlags) : IfFlags :=
  { linkUp := x.linkUp || y.linkUp
    adminDown := x.adminDown || y.adminDown
    unnumbered := x.unnumbered || y.unnumbered
    multicast := x.multicast || y.multicast
    loopback := x.loopback || y.loopback
    ignore := x.ignore || y.ignore
    broadcast := x.broadcast || y.broadcast }

/-- Modelled from the spec (§4.4 mapping table, quoted by claim C7): the
abstract flag set is the union of LINK_UP for IFF_UP, LOOPBACK+IGNORE for
IFF_LOOPBACK, BROADCAST+MULTICAST for IFF_BROADCAST, UNNUMBERED+MULTICAST
for IFF_POINTOPOINT, and nothing else. -/
def specLinkFlags (fl : Nat) : IfFlags :=
  flagsUnion (if fl &&& IFF_UP ≠ 0 then { linkUp := true } else {})
    (flagsUnion (if fl &&& IFF_LOOPBACK ≠ 0 then { loopback := true, ignore := true } else {})
      (flagsUnion (if fl &&& IFF_BROADCAST ≠ 0 then { broadcast := true, multicast := true } else {})
        (if fl &&& IFF_POINTOPOINT ≠ 0 then { unnumbered := true, multicast := true } else {})))

theorem nl_link_flags_eq_spec (fl : Nat) : nl_link_flags fl = specLinkFlags fl := by
  unfold nl_link_flags specLinkFlags flagsUnion
  by_cases h1 : fl &&& IFF_UP ≠ 0 <;> by_cases h2 : fl &&& IFF_POINTOPOINT ≠ 0 <;>
    by_cases h3 : fl &&& IFF_LOOPBACK ≠ 0 <;> by_cases h4 : fl &&& IFF_BROADCAST ≠ 0 <;>
      simp [h1, h2, h3, h4]

/-- Claim C7: for every accepted NEWLINK frame, the published abstract
flag set is computed fresh from the kernel flags (no stale abstract bits
survive) as the union of: LINK_UP if IFF_UP; LOOPBACK and IGNORE if
IFF_LOOPBACK; BROADCAST and MULTICAST if IFF_BROADCAST; UNNUMBERED and
MULTICAST if IFF_POINTOPOINT; and nothing else. -/
theorem nl_parse_link_fresh_flags (msgType : Nat) (i : IfInfoMsg) (a : LinkAttrs)
    (scan : Bool) (lookup : Nat → Option Iface) (f : Iface) (logs : List LogMsg)
    (hnew : msgType = RTM_NEWLINK)
    (hres : nl_parse_link msgType i a scan lookup = (some f, logs)) :
    f.flags = specLinkFlags i.ifi_flags := by
  subst hnew
  rcases a with ⟨nmO, mtuO⟩
  rcases nmO with _ | nm
  · exact absurd hres (by simp [nl_parse_link])
  rcases mtuO with _ | mtuA
  · exact absurd hres (by simp [nl_parse_link])
  by_cases hsz : RTA_PAYLOAD nm < 2 ∨ RTA_PAYLOAD mtuA ≠ 4
  · rw [show nl_parse_link RTM_NEWLINK i ⟨some nm, some mtuA⟩ scan lookup =
        (none, [.errMalformedLink]) from by
      simp only [nl_parse_link]
      rw [if_pos hsz]] at hres
    exact absurd hres (by simp)
  · have hres' := hres
    simp only [nl_parse_link] at hres'
    rw [if_neg hsz] at hres'
    have hbeq : (RTM_NEWLINK == RTM_NEWLINK) = true := rfl
    rw [hbeq] at hres'
    simp only [Bool.true_eq_false, if_false] at hres'
    cases hlk : lookup i.ifi_index with
    | some oldf =>
      rw [hlk] at hres'
      have : f = { oldf with name := nm.str, mtu := mtuA.val, flags := nl_link_flags i.ifi_flags } := by
        have := congrArg Prod.fst hres'
        simpa using this.symm
      rw [this]
      exact nl_link_flags_eq_spec i.ifi_flags
    | none =>
      rw [hlk] at hres'
      have : f = { ({ index := i.ifi_index } : Iface) with name := nm.str, mtu := mtuA.val, flags := nl_link_flags i.ifi_flags } := by
        have := congrArg Prod.fst hres'
        simpa using this.symm
      rw [this]
      exact nl_link_flags_eq_spec i.ifi_flags

theorem nl_parse_link_fresh_flags_witness :
    nl_parse_link RTM_NEWLINK ⟨1, 9⟩ ⟨some ⟨7, 3, 0, "lo"⟩, some ⟨8, 4, 65536, ""⟩⟩
        true (fun _ => none) =
      (some { index := 1, name := "lo", mtu := 65536,
              flags := { linkUp := true, loopback := true, ignore := true } }, []) ∧
    ({ linkUp := true, loopback := true, ignore := true } : IfFlags) = specLinkFlags 9 :=
  ⟨by decide,
    nl_parse_link_fresh_flags RTM_NEWLINK ⟨1, 9⟩ ⟨some ⟨7, 3, 0, "lo"⟩, some ⟨8, 4, 65536, ""⟩⟩
      true (fun _ => none)
      { index := 1, name := "lo", mtu := 65536,
        flags := { linkUp := true, loopback := true, ignore := true } } [] rfl (by decide)⟩

/-! ## Address translator (nl_parse_addr, netlink.c lines 329-396) -/

structure IfAddrMsg where
  ifa_family : Nat
  ifa_prefixlen : Nat
  ifa_flags : Nat
  ifa_index : Nat
  deriving DecidableEq, Repr

structure AddrAttrs where
  ifa_address : Option Rtattr := none
  ifa_local : Option Rtattr := none
  ifa_broadcast : Option Rtattr := none
  deriving DecidableEq, Repr

/-- The optional IFA_BROADCAST attribute is malformed when present with a
payload other than sizeof(ip_addr). -/
def brdBad : Option Rtattr → Bool
  | some br => RTA_PAYLOAD br != 4
  | none => false

/-- Modelled from the spec (§4.5): `ipa_mkmask` lives in BIRD's lib tree,
which is outside src/; it builds the IPv4 netmask with `len` leading one
bits, and `ipa_and` is bitwise conjunction ("prefix = local &
netmask(prefix_len)"). -/
def ipa_mkmask (len : Nat) : Nat := 2 ^ 32 - 2 ^ (32 - len)

def ipa_and (x y : Nat) : Nat := x &&& y

/-- nl_parse_addr after nl_checkin / nl_parse_attrs (modelled by
nl_parse_attrs above) produced the body and attribute table.  Returns the
record handed to if_update, if any, and the log messages emitted. -/
def nl_parse_addr (msgType : Nat) (i : IfAddrMsg) (a : AddrAttrs)
    (if_find_by_index : Nat → Option Iface) : Option Iface × List LogMsg :=
  if i.ifa_family ≠ AF_INET then (none, [])
  else
    match a.ifa_address, a.ifa_local with
    | some ad, some lo =>
      if RTA_PAYLOAD ad ≠ 4 ∨ RTA_PAYLOAD lo ≠ 4 ∨ brdBad a.ifa_broadcast = true then
        (none, [.errMalformedAddr])
      else if i.ifa_flags &&& IFA_F_SECONDARY ≠ 0 then (none, [])
      else
        match if_find_by_index i.ifa_index with
        | none => (none, [.errUnknownIface])
        | some ifi =>
          let bad := 32 < i.ifa_prefixlen ∨ i.ifa_prefixlen = 31 ∨
            (ifi.flags.unnumbered = true ∧ i.ifa_prefixlen ≠ 32)
          let new : Bool := if bad then false else msgType == RTM_NEWADDR
          let logs : List LogMsg := if bad then [.errInvalidPrefixLen] else []
          let f := { ifi with ip := 0, brd := 0, opposite := 0 }
          if new = false then
            (some { f with pxlen := 0 }, logs)
          else
            let f := { f with ip := ipa_ntoh lo.val, pxlen := i.ifa_prefixlen }
            let f :=
              if f.flags.unnumbered = true then
                { f with opposite := ipa_ntoh ad.val, brd := ipa_ntoh ad.val }
              else
                match a.ifa_broadcast with
                | some br => if f.flags.broadcast = true then { f with brd := ipa_ntoh br.val } else f
                | none => f
            let f := { f with pfx := ipa_and f.ip (ipa_mkmask f.pxlen) }
            (some f, logs)
    | _, _ => (none, [.errMalformedAddr])

/-- Claim C4: for every address frame whose parent interface is known and
whose prefix length is greater than 32, equal to 31, or on an UNNUMBERED
interface different from 32, the translator logs an error and publishes
the binding as a deletion: the published record has prefix length 0 and
its local, broadcast and opposite addresses cleared. -/
theorem nl_parse_addr_invalid_len_is_delete (msgType : Nat) (i : IfAddrMsg)
    (ad lo : Rtattr) (brO : Option Rtattr) (lookup : Nat → Option Iface) (ifi : Iface)
    (hfam : i.ifa_family = AF_INET)
    (hsz : ¬(RTA_PAYLOAD ad ≠ 4 ∨ RTA_PAYLOAD lo ≠ 4 ∨ brdBad brO = true))
    (hsec : i.ifa_flags &&& IFA_F_SECONDARY = 0)
    (hifi : lookup i.ifa_index = some ifi)
    (hbad : 32 < i.ifa_prefixlen ∨ i.ifa_prefixlen = 31 ∨
      (ifi.flags.unnumbered = true ∧ i.ifa_prefixlen ≠ 32)) :
    nl_parse_addr msgType i ⟨some ad, some lo, brO⟩ lookup =
      (some { ifi with ip := 0, brd := 0, opposite := 0, pxlen := 0 },
       [LogMsg.errInvalidPrefixLen]) := by
  simp only [nl_parse_addr]
  rw [if_neg (by simp [hfam])]
  rw [if_neg hsz]
  rw [if_neg (show ¬(i.ifa_flags &&& IFA_F_SECONDARY ≠ 0) by simp [hsec])]
  rw [hifi]
  simp only
  rw [if_pos hbad, if_pos hbad]
  rfl

/-- A known broadcast-capable interface used by concrete address frames. -/
def ifiBrd : Iface :=
  { index := 4, name := "eth0", mtu := 1500
    flags := { linkUp := true, broadcast := true, multicast := true }
    ip := 5, brd := 6, opposite := 7, pfx := 8, pxlen := 24 }

theorem nl_parse_addr_invalid_len_is_delete_witness :
    (IfAddrMsg.mk 2 33 0 4).ifa_family = AF_INET ∧
    (32 < (IfAddrMsg.mk 2 33 0 4).ifa_prefixlen ∨ (IfAddrMsg.mk 2 33 0 4).ifa_prefixlen = 31 ∨
      (ifiBrd.flags.unnumbered = true ∧ (IfAddrMsg.mk 2 33 0 4).ifa_prefixlen ≠ 32)) ∧
    nl_parse_addr RTM_NEWADDR ⟨2, 33, 0, 4⟩ ⟨some ⟨8, 1, 1, ""⟩, some ⟨8, 2, 1, ""⟩, none⟩
        (fun n => if n = 4 then some ifiBrd else none) =
      (some { ifiBrd with ip := 0, brd := 0, opposite := 0, pxlen := 0 },
       [LogMsg.errInvalidPrefixLen]) :=
  ⟨by decide, by decide,
    nl_parse_addr_invalid_len_is_delete RTM_NEWADDR ⟨2, 33, 0, 4⟩ ⟨8, 1, 1, ""⟩ ⟨8, 2, 1, ""⟩
      none (fun n => if n = 4 then some ifiBrd else none) ifiBrd
      (by decide) (by decide) (by decide) (by decide) (by decide)⟩

/-- Claim C6: for every NEWADDR frame accepted (not turned into a
deletion) on an interface flagged UNNUMBERED, the published binding has
prefix length exactly 32 and its opposite and broadcast fields are both
equal to the byte-order-converted value of the ADDRESS TLV. -/
theorem nl_parse_addr_unnumbered_invariant (msgType : Nat) (i : IfAddrMsg) (a : AddrAttrs)
    (lookup : Nat → Option Iface) (ifi f : Iface) (logs : List LogMsg) (ad : Rtattr)
    (hnew : msgType = RTM_NEWADDR)
    (had : a.ifa_address = some ad)
    (hifi : lookup i.ifa_index = some ifi)
    (hunnum : ifi.flags.unnumbered = true)
    (hres : nl_parse_addr msgType i a lookup = (some f, logs))
    (hkept : f.pxlen ≠ 0) :
    f.pxlen = 32 ∧ f.opposite = ipa_ntoh ad.val ∧ f.brd = ipa_ntoh ad.val := by
  subst hnew
  rcases a with ⟨adO, loO, brO⟩
  simp only at had
  subst had
  by_cases hfam : i.ifa_family ≠ AF_INET
  · rw [show nl_parse_addr RTM_NEWADDR i ⟨some ad, loO, brO⟩ lookup = (none, []) from by
      simp only [nl_parse_addr]
      rw [if_pos hfam]] at hres
    exact absurd hres (by simp)
  rcases loO with _ | lo
  · exact absurd hres (by simp [nl_parse_addr, if_neg hfam])
  by_cases hsz : RTA_PAYLOAD ad ≠ 4 ∨ RTA_PAYLOAD lo ≠ 4 ∨ brdBad brO = true
  · rw [show nl_parse_addr RTM_NEWADDR i ⟨some ad, some lo, brO⟩ lookup =
        (none, [.errMalformedAddr]) from by
      simp only [nl_parse_addr]
      rw [if_neg hfam, if_pos hsz]] at hres
    exact absurd hres (by simp)
  by_cases hsec : i.ifa_flags &&& IFA_F_SECONDARY ≠ 0
  · rw [show nl_parse_addr RTM_NEWADDR i ⟨some ad, some lo, brO⟩ lookup = (none, []) from by
      simp only [nl_parse_addr]
      rw [if_neg hfam, if_neg hsz, if_pos hsec]] at hres
    exact absurd hres (by simp)
  simp only [nl_parse_addr] at hres
  rw [if_neg hfam, if_neg hsz, if_neg hsec, hifi] at hres
  simp only at hres
  by_cases hbad : 32 < i.ifa_prefixlen ∨ i.ifa_prefixlen = 31 ∨
      (ifi.flags.unnumbered = true ∧ i.ifa_prefixlen ≠ 32)
  · rw [if_pos hbad, if_pos hbad] at hres
    simp only [reduceIte] at hres
    have hf := congrArg Prod.fst hres
    simp only at hf
    have : f.pxlen = 0 := by
      rw [← Option.some.injEq] at hf
      cases hf
      rfl
    exact absurd this hkept
  · have hp32 : i.ifa_prefixlen = 32 := by
      push_neg at hbad
      exact hbad.2.2 hunnum
    rw [if_neg hbad, if_neg hbad] at hres
    have hbeq : (RTM_NEWADDR == RTM_NEWADDR) = true := rfl
    rw [hbeq] at hres
    simp only [Bool.true_eq_false, if_false, reduceIte] at hres
    rw [if_pos hunnum] at hres
    have hf := congrArg Prod.fst hres
    simp only at hf
    rw [← Option.some.injEq] at hf
    cases hf
    exact ⟨hp32, rfl, rfl⟩

/-- A known unnumbered point-to-point interface. -/
def ifiUnn : Iface :=
  { index := 9, name := "ppp0", mtu := 1476
    flags := { linkUp := true, unnumbered := true, multicast := true } }

theorem nl_parse_addr_unnumbered_invariant_witness :
    nl_parse_addr RTM_NEWADDR ⟨2, 32, 0, 9⟩ ⟨some ⟨8, 1, 2, ""⟩, some ⟨8, 2, 1, ""⟩, none⟩
        (fun n => if n = 9 then some ifiUnn else none) =
      (some { ifiUnn with ip := 16777216, brd := 33554432, opposite := 33554432, pxlen := 32, pfx := 16777216 }, []) ∧
    ((32 : Nat) = 32 ∧ (33554432 : Nat) = ipa_ntoh 2 ∧ (33554432 : Nat) = ipa_ntoh 2) :=
  ⟨by decide,
    nl_parse_addr_unnumbered_invariant RTM_NEWADDR ⟨2, 32, 0, 9⟩
      ⟨some ⟨8, 1, 2, ""⟩, some ⟨8, 2, 1, ""⟩, none⟩
      (fun n => if n = 9 then some ifiUnn else none) ifiUnn
      { ifiUnn with ip := 16777216, brd := 33554432, opposite := 33554432, pxlen := 32, pfx := 16777216 } [] ⟨8, 1, 2, ""⟩
      rfl rfl (by decide) (by decide) (by decide) (by decide)⟩

/-! ## Route translator (nl_parse_route, netlink.c lines 544-673) -/

inductive KrtSrc where
  | redirect
  | bird
  | alien
  deriving DecidableEq, Repr

/-- Abstract destination categories (RTD_* from nest/route.h, outside
src/); `other` stands for every further RTD value, reachable only on the
emit side. -/
inductive RtDest where
  | router
  | device
  | blackhole
  | unreachable
  | prohibit
  | other
  deriving DecidableEq, Repr

structure RtMsg where
  rtm_family : Nat
  rtm_dst_len : Nat
  rtm_tos : Nat
  rtm_table : Nat
  rtm_protocol : Nat
  rtm_type : Nat
  deriving DecidableEq, Repr

structure RouteAttrs where
  rta_dst : Option Rtattr := none
  rta_oif : Option Rtattr := none
  rta_gateway : Option Rtattr := none
  deriving DecidableEq, Repr

/-- The fields of the constructed rte/rta pair that netlink.c sets
(scope, cast, tos are fixed constants and omitted). -/
structure RouteRec where
  net_pfx_ip : Nat
  net_pxlen : Nat
  dest : RtDest
  gw : Nat
  iface : Option Iface
  src : KrtSrc
  deriving DecidableEq, Repr

/-- External collaborators of nl_parse_route: the neighbor cache (the
found neighbor's interface), the interface table, and the synchronizer's
temporary-interface list. -/
structure KrtEnv where
  neigh_find : Nat → Option Iface
  if_find_by_index : Nat → Option Iface
  temp_ifs : List Iface

/-- krt_temp_iface (lines 526-542): walk the list for the index; on a
miss allocate a zeroed stand-in named after the real interface when one
exists ("?" otherwise) and append it. -/
def krt_temp_iface (env : KrtEnv) (index : Nat) : Iface × List Iface :=
  match env.temp_ifs.find? (fun i => i.index == index) with
  | some i => (i, env.temp_ifs)
  | none =>
    let nm := match env.if_find_by_index index with
      | some j => j.name
      | none => "?"
    let i : Iface := { index := index, name := nm }
    (i, env.temp_ifs ++ [i])

/-- The rtm_protocol switch of nl_parse_route (lines 594-612): kernel
routes are dropped, redirects tagged REDIRECT, self-originated routes
tagged BIRD during a scan and dropped on the async path, everything else
tagged ALIEN. -/
def nl_route_src (protocol : Nat) (scan : Bool) : Option KrtSrc :=
  if protocol = RTPROT_REDIRECT then some .redirect
  else if protocol = RTPROT_KERNEL then none
  else if protocol = RTPROT_BIRD then (if scan then some .bird else none)
  else some .alien

/-- A present attribute whose payload size differs from the expected one
(the malformed-message check, lines 561-567). -/
def rtaBad (o : Option Rtattr) (n : Nat) : Bool :=
  match o with
  | some x => RTA_PAYLOAD x != n
  | none => false

structure RouteParse where
  route : Option RouteRec
  logs : List LogMsg
  temp_ifs : List Iface

/-- nl_parse_route after nl_checkin / nl_parse_attrs produced the body
and attribute table.  `route = some r` models handing `r` to
krt_got_route (scan) or krt_got_route_async (async). -/
def nl_parse_route (msgType : Nat) (i : RtMsg) (a : RouteAttrs) (scan : Bool)
    (env : KrtEnv) : RouteParse :=
  if i.rtm_family ≠ AF_INET then ⟨none, [], env.temp_ifs⟩
  else if rtaBad a.rta_dst 4 = true ∨ rtaBad a.rta_oif 4 = true ∨
      rtaBad a.rta_gateway 4 = true then ⟨none, [.errMalformedRoute], env.temp_ifs⟩
  else if i.rtm_table ≠ RT_TABLE_MAIN then ⟨none, [], env.temp_ifs⟩
  else if i.rtm_tos ≠ 0 then ⟨none, [], env.temp_ifs⟩
  else if scan = true ∧ (msgType == RTM_NEWROUTE) = false then ⟨none, [], env.temp_ifs⟩
  else
    let dst := match a.rta_dst with
      | some d => ipa_ntoh d.val
      | none => 0
    let oif := match a.rta_oif with
      | some o => o.val
      | none => 4294967295
    match nl_route_src i.rtm_protocol scan with
    | none => ⟨none, [], env.temp_ifs⟩
    | some src =>
      if i.rtm_type = RTN_UNICAST then
        if oif = 4294967295 then ⟨none, [.errNoOIF], env.temp_ifs⟩
        else
          match a.rta_gateway with
          | some g =>
            let gw := ipa_ntoh g.val
            match env.neigh_find gw with
            | some ng => ⟨some ⟨dst, i.rtm_dst_len, .router, gw, some ng, src⟩, [], env.temp_ifs⟩
            | none => ⟨some ⟨dst, i.rtm_dst_len, .router, gw, none, src⟩, [.warnNonNeighbor], env.temp_ifs⟩
          | none =>
            let p := krt_temp_iface env oif
            ⟨some ⟨dst, i.rtm_dst_len, .device, 0, some p.1, src⟩, [], p.2⟩
      else if i.rtm_type = RTN_BLACKHOLE then
        ⟨some ⟨dst, i.rtm_dst_len, .blackhole, 0, none, src⟩, [], env.temp_ifs⟩
      else if i.rtm_type = RTN_UNREACHABLE then
        ⟨some ⟨dst, i.rtm_dst_len, .unreachable, 0, none, src⟩, [], env.temp_ifs⟩
      else if i.rtm_type = RTN_PROHIBIT then
        ⟨some ⟨dst, i.rtm_dst_len, .prohibit, 0, none, src⟩, [], env.temp_ifs⟩
      else ⟨none, [], env.temp_ifs⟩

/-- Every route nl_parse_route accepts carries the source tag computed by
the rtm_protocol switch. -/
theorem nl_parse_route_accept_src (msgType : Nat) (i : RtMsg) (a : RouteAttrs)
    (scan : Bool) (env : KrtEnv) (r : RouteRec)
    (hres : (nl_parse_route msgType i a scan env).route = some r) :
    nl_route_src i.rtm_protocol scan = some r.src := by
  simp only [nl_parse_route] at hres
  split at hres
  · exact Option.noConfusion hres
  split at hres
  · exact Option.noConfusion hres
  split at hres
  · exact Option.noConfusion hres
  split at hres
  · exact Option.noConfusion hres
  split at hres
  · exact Option.noConfusion hres
  split at hres
  · exact Option.noConfusion hres
  · rename_i src heq
    split at hres
    · split at hres
      · exact Option.noConfusion hres
      · split at hres
        · split at hres
          · have hx := Option.some.inj hres
            subst hx
            exact heq
          · have hx := Option.some.inj hres
            subst hx
            exact heq
        · have hx := Option.some.inj hres
          subst hx
          exact heq
    · split at hres
      · have hx := Option.some.inj hres
        subst hx
        exact heq
      · split at hres
        · have hx := Option.some.inj hres
          subst hx
          exact heq
        · split at hres
          · have hx := Option.some.inj hres
            subst hx
            exact heq
          · exact Option.noConfusion hres

/-- When the rtm_protocol switch drops the frame, no route is accepted. -/
theorem nl_parse_route_src_drop (msgType : Nat) (i : RtMsg) (a : RouteAttrs)
    (scan : Bool) (env : KrtEnv)
    (hsrc : nl_route_src i.rtm_protocol scan = none) :
    (nl_parse_route msgType i a scan env).route = none := by
  cases hr : (nl_parse_route msgType i a scan env).route with
  | none => rfl
  | some r =>
    have hs := nl_parse_route_accept_src msgType i a scan env r hr
    rw [hsrc] at hs
    exact Option.noConfusion hs

/-- Claim C2: route source classification is total and exclusive: for
every route frame that passes the pre-filters, rtm_protocol =
RTPROT_KERNEL causes the frame to be dropped; RTPROT_REDIRECT yields tag
REDIRECT; RTPROT_BIRD yields tag BIRD if and only if processing happens
during a scan and is dropped on the asynchronous path; any other
protocol yields tag ALIEN; so every accepted route carries exactly one
source tag. -/
theorem nl_parse_route_src_classification (msgType : Nat) (i : RtMsg) (a : RouteAttrs)
    (scan : Bool) (env : KrtEnv)
    (hfam : i.rtm_family = AF_INET)
    (hsz : ¬(rtaBad a.rta_dst 4 = true ∨ rtaBad a.rta_oif 4 = true ∨
      rtaBad a.rta_gateway 4 = true))
    (htab : i.rtm_table = RT_TABLE_MAIN)
    (htos : i.rtm_tos = 0)
    (hnotdel : ¬(scan = true ∧ (msgType == RTM_NEWROUTE) = false)) :
    (i.rtm_protocol = RTPROT_KERNEL → (nl_parse_route msgType i a scan env).route = none) ∧
    (i.rtm_protocol = RTPROT_BIRD → scan = false →
      (nl_parse_route msgType i a scan env).route = none) ∧
    (∀ r, (nl_parse_route msgType i a scan env).route = some r →
      (i.rtm_protocol = RTPROT_REDIRECT → r.src = KrtSrc.redirect) ∧
      (i.rtm_protocol = RTPROT_BIRD → scan = true ∧ r.src = KrtSrc.bird) ∧
      (i.rtm_protocol ≠ RTPROT_REDIRECT → i.rtm_protocol ≠ RTPROT_KERNEL →
        i.rtm_protocol ≠ RTPROT_BIRD → r.src = KrtSrc.alien)) := by
  refine ⟨?_, ?_, ?_⟩
  · intro hk
    apply nl_parse_route_src_drop
    rw [hk]
    simp [nl_route_src, RTPROT_KERNEL, RTPROT_REDIRECT]
  · intro hb hs
    apply nl_parse_route_src_drop
    rw [hb, hs]
    simp [nl_route_src, RTPROT_BIRD, RTPROT_KERNEL, RTPROT_REDIRECT]
  · intro r hr
    have hsrc := nl_parse_route_accept_src msgType i a scan env r hr
    refine ⟨?_, ?_, ?_⟩
    · intro h1
      rw [h1] at hsrc
      unfold nl_route_src at hsrc
      rw [if_pos rfl] at hsrc
      exact (Option.some.inj hsrc).symm
    · intro hb
      rw [hb] at hsrc
      unfold nl_route_src at hsrc
      rw [if_neg (by decide), if_neg (by decide), if_pos rfl] at hsrc
      cases scan with
      | false => exact absurd hsrc (by simp)
      | true => exact ⟨rfl, (Option.some.inj (by simpa using hsrc)).symm⟩
    · intro h1 h2 h3
      unfold nl_route_src at hsrc
      rw [if_neg h1, if_neg h2, if_neg h3] at hsrc
      exact (Option.some.inj hsrc).symm

/-- A self-originated (RTPROT_BIRD) unicast route frame seen in a scan. -/
def c2Msg : RtMsg := ⟨2, 24, 0, 254, 13, 1⟩

def c2Attrs : RouteAttrs := ⟨some ⟨8, 1, 16, ""⟩, some ⟨8, 4, 3, ""⟩, none⟩

def c2Env : KrtEnv := ⟨fun _ => none, fun _ => none, []⟩

theorem nl_parse_route_src_classification_witness :
    c2Msg.rtm_family = AF_INET ∧
    ¬(rtaBad c2Attrs.rta_dst 4 = true ∨ rtaBad c2Attrs.rta_oif 4 = true ∨
      rtaBad c2Attrs.rta_gateway 4 = true) ∧
    c2Msg.rtm_table = RT_TABLE_MAIN ∧
    c2Msg.rtm_tos = 0 ∧
    ¬(true = true ∧ (RTM_NEWROUTE == RTM_NEWROUTE) = false) ∧
    ((c2Msg.rtm_protocol = RTPROT_KERNEL →
        (nl_parse_route RTM_NEWROUTE c2Msg c2Attrs true c2Env).route = none) ∧
     (c2Msg.rtm_protocol = RTPROT_BIRD → true = false →
        (nl_parse_route RTM_NEWROUTE c2Msg c2Attrs true c2Env).route = none) ∧
     (∀ r, (nl_parse_route RTM_NEWROUTE c2Msg c2Attrs true c2Env).route = some r →
       (c2Msg.rtm_protocol = RTPROT_REDIRECT → r.src = KrtSrc.redirect) ∧
       (c2Msg.rtm_protocol = RTPROT_BIRD → true = true ∧ r.src = KrtSrc.bird) ∧
       (c2Msg.rtm_protocol ≠ RTPROT_REDIRECT → c2Msg.rtm_protocol ≠ RTPROT_KERNEL →
         c2Msg.rtm_protocol ≠ RTPROT_BIRD → r.src = KrtSrc.alien))) :=
  ⟨by decide, by decide, by decide, by decide, by decide,
    nl_parse_route_src_classification RTM_NEWROUTE c2Msg c2Attrs true c2Env
      (by decide) (by decide) (by decide) (by decide) (by decide)⟩

/-- A NEWROUTE frame: IPv4, /24, main table, TOS 0, protocol 3 (alien),
RTN_UNICAST, with DST, OIF = 7 and a GATEWAY attribute. -/
def c1Msg : RtMsg := ⟨2, 24, 0, 254, 3, 1⟩

def c1Attrs : RouteAttrs := ⟨some ⟨8, 1, 2, ""⟩, some ⟨8, 4, 7, ""⟩, some ⟨8, 5, 1, ""⟩⟩

/-- An environment whose neighbor cache is empty. -/
def c1Env : KrtEnv := ⟨fun _ => none, fun _ => none, []⟩

/-- Claim C1 counterexample: this NEWROUTE is accepted as a UNICAST route
via a gateway that is no neighbor, on OIF 7 — yet the route record's
outgoing interface is NULL, not the stand-in the temporary-interface
cache resolves for index 7 (which exists and has index 7): the code sets
the interface only when neigh_find succeeds and never falls back to
krt_temp_iface on the gateway path, so the claimed invariant that every
accepted UNICAST route carries a non-null outgoing interface fails. -/
theorem nl_parse_route_nonneighbor_counterexample :
    ((nl_parse_route RTM_NEWROUTE c1Msg c1Attrs false c1Env).route.map RouteRec.iface) =
      some none ∧
    (krt_temp_iface c1Env 7).1 = { index := 7, name := "?" } := by decide

/-- Claim C1 (amended): for every NEWROUTE frame that passes the
pre-filters and is accepted as a UNICAST route carrying a GATEWAY TLV
whose gateway address is not found in the daemon's neighbor cache, the
translator logs a warning and the resulting route record has destination
ROUTER with a NULL outgoing interface; the temporary-interface cache is
consulted only for gateway-less (DEVICE) routes, so an accepted UNICAST
route may carry no outgoing interface. -/
theorem nl_parse_route_nonneighbor_null_iface (msgType : Nat) (i : RtMsg) (a : RouteAttrs)
    (scan : Bool) (env : KrtEnv) (g o : Rtattr)
    (hnew : msgType = RTM_NEWROUTE)
    (hfam : i.rtm_family = AF_INET)
    (hsz : ¬(rtaBad a.rta_dst 4 = true ∨ rtaBad a.rta_oif 4 = true ∨
      rtaBad a.rta_gateway 4 = true))
    (htab : i.rtm_table = RT_TABLE_MAIN)
    (htos : i.rtm_tos = 0)
    (htype : i.rtm_type = RTN_UNICAST)
    (hoif : a.rta_oif = some o)
    (hoifv : ¬o.val = 4294967295)
    (hgw : a.rta_gateway = some g)
    (hng : env.neigh_find (ipa_ntoh g.val) = none)
    (src : KrtSrc) (hsrc : nl_route_src i.rtm_protocol scan = some src) :
    (nl_parse_route msgType i a scan env).route =
      some ⟨(match a.rta_dst with | some d => ipa_ntoh d.val | none => 0), i.rtm_dst_len,
        RtDest.router, ipa_ntoh g.val, none, src⟩ ∧
    (nl_parse_route msgType i a scan env).logs = [LogMsg.warnNonNeighbor] := by
  subst hnew
  rw [hoif, hgw] at hsz
  simp only [nl_parse_route, hoif, hgw, hsrc, hng]
  rw [if_neg (by simp [hfam])]
  rw [if_neg hsz]
  rw [if_neg (by simp [htab])]
  rw [if_neg (by simp [htos])]
  rw [if_neg (show ¬(scan = true ∧ (RTM_NEWROUTE == RTM_NEWROUTE) = false) by simp)]
  rw [if_pos htype]
  rw [if_neg hoifv]
  exact ⟨rfl, rfl⟩

theorem nl_parse_route_nonneighbor_null_iface_witness :
    c1Env.neigh_find (ipa_ntoh 1) = none ∧
    ((nl_parse_route RTM_NEWROUTE c1Msg c1Attrs false c1Env).route =
       some ⟨ipa_ntoh 2, 24, RtDest.router, ipa_ntoh 1, none, KrtSrc.alien⟩ ∧
     (nl_parse_route RTM_NEWROUTE c1Msg c1Attrs false c1Env).logs =
       [LogMsg.warnNonNeighbor]) :=
  ⟨rfl,
    nl_parse_route_nonneighbor_null_iface RTM_NEWROUTE c1Msg c1Attrs false c1Env
      ⟨8, 5, 1, ""⟩ ⟨8, 4, 7, ""⟩ rfl rfl (by decide) rfl rfl rfl rfl (by decide) rfl rfl
      KrtSrc.alien (by decide)⟩

/-! ## Route emitter (krt_capable, nl_send_route; netlink.c lines 426-499) -/

/-- RTC_* cast categories from nest/route.h (outside src/); only
"unicast or not" matters to this code. -/
inductive RtCast where
  | unicast
  | other
  deriving DecidableEq, Repr

/-- The fields of rte/rta that krt_capable and nl_send_route read;
`n_pfx` / `n_pxlen` are the C fields net->n.prefix / net->n.pxlen. -/
structure Rte where
  n_pfx : Nat
  n_pxlen : Nat
  dest : RtDest
  gw : Nat
  iface : Option Iface
  cast : RtCast
  deriving DecidableEq, Repr

/-- krt_capable (lines 426-445). -/
def krt_capable (e : Rte) : Bool :=
  if e.cast ≠ RtCast.unicast then false
  else
    match e.dest with
    | .router | .device | .blackhole | .unreachable | .prohibit => true
    | .other => false

/-- An emitted route-change frame: netlink header fields, rtmsg body
fields, and the appended attributes as (code, payload-bytes-as-u32)
pairs in wire order. -/
structure NlRtFrame where
  nlmsg_type : Nat
  nlmsg_flags : Nat
  nlmsg_len : Nat
  rtm_family : Nat
  rtm_dst_len : Nat
  rtm_tos : Nat
  rtm_table : Nat
  rtm_protocol : Nat
  rtm_scope : Nat
  rtm_type : Nat
  attrs : List (Nat × Nat)
  deriving DecidableEq, Repr

/-- sizeof of the send structure `struct { nlmsghdr h; rtmsg r; char buf[128]; }`. -/
def SIZEOF_NL_ROUTE_BUF : Nat := SIZEOF_NLMSGHDR + SIZEOF_RTMSG + 128

/-- Shared layout logic of nl_add_attr_u32 / nl_add_attr_ipa (lines
234-263): align the current frame length, bounds-check against the send
buffer (`bug()` on overflow, modelled as `none`), append a 4-byte
attribute header plus 4-byte payload (RTA_LENGTH(4) = 8) and advance the
length. -/
def nl_add_attr (h : NlRtFrame) (maxsize code payload : Nat) : Option NlRtFrame :=
  if maxsize < nlmsgAlign h.nlmsg_len + (rtaAlign 4 + 4) then none
  else some { h with attrs := h.attrs ++ [(code, payload)],
                     nlmsg_len := nlmsgAlign h.nlmsg_len + (rtaAlign 4 + 4) }

def nl_add_attr_u32 (h : NlRtFrame) (maxsize code data : Nat) : Option NlRtFrame :=
  nl_add_attr h maxsize code data

/-- nl_add_attr_ipa additionally converts the address to network byte
order before copying it in. -/
def nl_add_attr_ipa (h : NlRtFrame) (maxsize code ipa : Nat) : Option NlRtFrame :=
  nl_add_attr h maxsize code (ipa_hton ipa)

/-- nl_send_route (lines 447-499) up to the nl_exchange call: the frame
it serializes.  The `.other` arm is the `bug("krt_capable inconsistent
with nl_send_route")` default; a DEVICE route without an interface would
dereference NULL in C and is likewise modelled as `none`. -/
def nl_send_route (e : Rte) (new : Bool) : Option NlRtFrame :=
  let r0 : NlRtFrame :=
    { nlmsg_type := if new then RTM_NEWROUTE else RTM_DELROUTE
      nlmsg_flags := NLM_F_REQUEST ||| NLM_F_ACK |||
        (if new then NLM_F_CREATE ||| NLM_F_REPLACE else 0)
      nlmsg_len := NLMSG_LENGTH SIZEOF_RTMSG
      rtm_family := AF_INET
      rtm_dst_len := e.n_pxlen
      rtm_tos := 0
      rtm_table := RT_TABLE_MAIN
      rtm_protocol := RTPROT_BIRD
      rtm_scope := RT_SCOPE_UNIVERSE
      rtm_type := 0
      attrs := [] }
  match nl_add_attr_ipa r0 SIZEOF_NL_ROUTE_BUF RTA_DST e.n_pfx with
  | none => none
  | some r1 =>
    match e.dest with
    | .router => nl_add_attr_ipa { r1 with rtm_type := RTN_UNICAST } SIZEOF_NL_ROUTE_BUF RTA_GATEWAY e.gw
    | .device =>
      match e.iface with
      | some ifc => nl_add_attr_u32 { r1 with rtm_type := RTN_UNICAST } SIZEOF_NL_ROUTE_BUF RTA_OIF ifc.index
      | none => none
    | .blackhole => some { r1 with rtm_type := RTN_BLACKHOLE }
    | .unreachable => some { r1 with rtm_type := RTN_UNREACHABLE }
    | .prohibit => some { r1 with rtm_type := RTN_PROHIBIT }
    | .other => none

/-- Claim C5: for every emittable route, the emitted frame always carries
an RTA_DST attribute equal to the destination prefix; a ROUTER route
additionally carries RTA_GATEWAY and a DEVICE route additionally carries
RTA_OIF with the interface index, while BLACKHOLE, UNREACHABLE and
PROHIBIT routes carry no further attribute; the frame flags are
REQUEST | ACK, with CREATE | REPLACE added exactly when the operation is
an install. -/
theorem nl_send_route_frame_shape (e : Rte) (new : Bool)
    (hcap : krt_capable e = true)
    (hif : e.dest = RtDest.device → ∃ ifc, e.iface = some ifc) :
    (nl_send_route e new).isSome = true ∧
    (nl_send_route e new).map (fun f => f.nlmsg_flags) =
      some (NLM_F_REQUEST ||| NLM_F_ACK |||
        (if new then NLM_F_CREATE ||| NLM_F_REPLACE else 0)) ∧
    (e.dest = RtDest.router → (nl_send_route e new).map (fun f => f.attrs) =
      some [(RTA_DST, ipa_hton e.n_pfx), (RTA_GATEWAY, ipa_hton e.gw)]) ∧
    (∀ ifc, e.dest = RtDest.device → e.iface = some ifc →
      (nl_send_route e new).map (fun f => f.attrs) =
        some [(RTA_DST, ipa_hton e.n_pfx), (RTA_OIF, ifc.index)]) ∧
    ((e.dest = RtDest.blackhole ∨ e.dest = RtDest.unreachable ∨ e.dest = RtDest.prohibit) →
      (nl_send_route e new).map (fun f => f.attrs) = some [(RTA_DST, ipa_hton e.n_pfx)]) := by
  obtain ⟨npfx, npxlen, dest, gw, ifaceO, cast⟩ := e
  cases dest with
  | other =>
    exact absurd hcap (by cases cast <;> simp [krt_capable])
  | router =>
    refine ⟨?_, ?_, ?_, ?_, ?_⟩ <;>
      simp [nl_send_route, nl_add_attr_u32, nl_add_attr_ipa, nl_add_attr,
        SIZEOF_NL_ROUTE_BUF, nlmsgAlign, NLMSG_LENGTH, SIZEOF_RTMSG, SIZEOF_NLMSGHDR,
        NLMSG_ALIGNTO, rtaAlign, NLM_F_REQUEST, NLM_F_ACK, NLM_F_CREATE, NLM_F_REPLACE,
        RTA_DST, RTA_GATEWAY, RTA_OIF]
  | device =>
    obtain ⟨ifc, hifc⟩ := hif rfl
    simp only at hifc
    subst hifc
    refine ⟨?_, ?_, ?_, ?_, ?_⟩
    · simp [nl_send_route, nl_add_attr_u32, nl_add_attr_ipa, nl_add_attr,
        SIZEOF_NL_ROUTE_BUF, nlmsgAlign, NLMSG_LENGTH, SIZEOF_RTMSG, SIZEOF_NLMSGHDR,
        NLMSG_ALIGNTO, rtaAlign]
    · simp [nl_send_route, nl_add_attr_u32, nl_add_attr_ipa, nl_add_attr,
        SIZEOF_NL_ROUTE_BUF, nlmsgAlign, NLMSG_LENGTH, SIZEOF_RTMSG, SIZEOF_NLMSGHDR,
        NLMSG_ALIGNTO, rtaAlign, NLM_F_REQUEST, NLM_F_ACK, NLM_F_CREATE, NLM_F_REPLACE]
    · intro hro
      exact RtDest.noConfusion hro
    · intro ifc2 _ hifc2
      simp only at hifc2
      obtain rfl := Option.some.inj hifc2
      simp [nl_send_route, nl_add_attr_u32, nl_add_attr_ipa, nl_add_attr,
        SIZEOF_NL_ROUTE_BUF, nlmsgAlign, NLMSG_LENGTH, SIZEOF_RTMSG, SIZEOF_NLMSGHDR,
        NLMSG_ALIGNTO, rtaAlign, RTA_DST, RTA_OIF]
    · intro hbk
      rcases hbk with h | h | h <;> exact RtDest.noConfusion h
  | blackhole =>
    refine ⟨?_, ?_, ?_, ?_, ?_⟩ <;>
      simp [nl_send_route, nl_add_attr_u32, nl_add_attr_ipa, nl_add_attr,
        SIZEOF_NL_ROUTE_BUF, nlmsgAlign, NLMSG_LENGTH, SIZEOF_RTMSG, SIZEOF_NLMSGHDR,
        NLMSG_ALIGNTO, rtaAlign, NLM_F_REQUEST, NLM_F_ACK, NLM_F_CREATE, NLM_F_REPLACE,
        RTA_DST]
  | unreachable =>
    refine ⟨?_, ?_, ?_, ?_, ?_⟩ <;>
      simp [nl_send_route, nl_add_attr_u32, nl_add_attr_ipa, nl_add_attr,
        SIZEOF_NL_ROUTE_BUF, nlmsgAlign, NLMSG_LENGTH, SIZEOF_RTMSG, SIZEOF_NLMSGHDR,
        NLMSG_ALIGNTO, rtaAlign, NLM_F_REQUEST, NLM_F_ACK, NLM_F_CREATE, NLM_F_REPLACE,
        RTA_DST]
  | prohibit =>
    refine ⟨?_, ?_, ?_, ?_, ?_⟩ <;>
      simp [nl_send_route, nl_add_attr_u32, nl_add_attr_ipa, nl_add_attr,
        SIZEOF_NL_ROUTE_BUF, nlmsgAlign, NLMSG_LENGTH, SIZEOF_RTMSG, SIZEOF_NLMSGHDR,
        NLMSG_ALIGNTO, rtaAlign, NLM_F_REQUEST, NLM_F_ACK, NLM_F_CREATE, NLM_F_REPLACE,
        RTA_DST]

/-- A ROUTER route to 192.0.2.0/24 via 10.0.0.254 (§8 scenario 3). -/
def rteRouter : Rte := ⟨3221225984, 24, RtDest.router, 167772414, none, RtCast.unicast⟩

theorem nl_send_route_frame_shape_witness :
    krt_capable rteRouter = true ∧
    ((nl_send_route rteRouter true).isSome = true ∧
     (nl_send_route rteRouter true).map (fun f => f.nlmsg_flags) =
       some (NLM_F_REQUEST ||| NLM_F_ACK |||
         (if true then NLM_F_CREATE ||| NLM_F_REPLACE else 0)) ∧
     (rteRouter.dest = RtDest.router → (nl_send_route rteRouter true).map (fun f => f.attrs) =
       some [(RTA_DST, ipa_hton rteRouter.n_pfx), (RTA_GATEWAY, ipa_hton rteRouter.gw)]) ∧
     (∀ ifc, rteRouter.dest = RtDest.device → rteRouter.iface = some ifc →
       (nl_send_route rteRouter true).map (fun f => f.attrs) =
         some [(RTA_DST, ipa_hton rteRouter.n_pfx), (RTA_OIF, ifc.index)]) ∧
     ((rteRouter.dest = RtDest.blackhole ∨ rteRouter.dest = RtDest.unreachable ∨
        rteRouter.dest = RtDest.prohibit) →
       (nl_send_route rteRouter true).map (fun f => f.attrs) =
         some [(RTA_DST, ipa_hton rteRouter.n_pfx)])) :=
  ⟨by decide,
    nl_send_route_frame_shape rteRouter true (by decide) (fun h => absurd h (by decide))⟩

/-- Claim C8 counterexample: the request frame's total length field is
sizeof of the request structure — 20 bytes, the header plus rtgenmsg
padded to the struct's 4-byte alignment — not sizeof(netlink header) +
sizeof(rtgenmsg) = 16 + 1 = 17 as claimed. -/
theorem nl_request_dump_len_counterexample :
    (nl_request_dump RTM_GETLINK).nlmsg_len = 20 ∧
    SIZEOF_NLMSGHDR + SIZEOF_RTGENMSG = 17 ∧
    (nl_request_dump RTM_GETLINK).nlmsg_len ≠ SIZEOF_NLMSGHDR + SIZEOF_RTGENMSG := by
  decide

/-- Claim C8 (amended): for every dump command (GETLINK, GETADDR,
GETROUTE — indeed any command), the request frame constructed has total
length exactly sizeof of the request structure, i.e. sizeof(netlink
header) + sizeof(rtgenmsg) rounded up to the structure's 4-byte
alignment (20 bytes), flags REQUEST | DUMP, family IPv4, and message
type equal to the caller-supplied command. -/
theorem nl_request_dump_frame (cmd : Nat) :
    nl_request_dump cmd =
      { nlmsg_type := cmd
        nlmsg_len := nlmsgAlign (SIZEOF_NLMSGHDR + SIZEOF_RTGENMSG)
        nlmsg_flags := NLM_F_REQUEST ||| NLM_F_DUMP
        rtgen_family := PF_INET } := rfl
